import Mathlib

/-!
Shallow embedding of the `cpppy_bridge` type-conversion engine and error-translation
layer (files `src/include/type_converter.h`, `src/include/type_converter.inl`, the
`type_converter.cpp` specializations, and the `error_handler` implementation), together
with theorems settling the frozen specification claims.

Modelling conventions:
* Python objects are an inductive value type `PyObject`.  A Python `float` stores an
  IEEE-754 binary64 payload; since the bridge only boxes and unboxes these values
  bit-for-bit (`py::float_` / `obj.cast<double>()`), the payload is modelled by its
  exact rational value.  A C `float` widened to a Python float (binary64) is widened
  exactly and narrows back exactly, so the same carrier is used for it.
* Python `bool` is a subclass of `int` (`PyLong_Check` accepts a bool), so the
  embedded `isPythonInt` accepts boolean objects, matching `py::isinstance<py::int_>`.
* Throwing C++ functions return `Except CppError`, where `CppError` covers the
  bridge exception taxonomy declared in `error_handler.h` plus `std::runtime_error`
  and `py::cast_error`.
* C++ templates parameterised over an element type are modelled as Lean functions
  taking the per-type converter as an explicit argument.
-/

namespace CppPyBridge

/-- Embedded dynamic (Python) values, as the bridge observes them. A `dict` keeps
its key/value pairs in insertion order, as CPython dictionaries do. -/
inductive PyObject where
  | none
  | bool (b : Bool)
  | int (n : Int)
  | float (x : Rat)
  | str (s : String)
  | list (xs : List PyObject)
  | dict (kvs : List (PyObject × PyObject))
  | tuple (xs : List PyObject)
  deriving Repr

/-- `TypeConverter::isPythonNone`: `obj.is_none()`. -/
def isPythonNone : PyObject → Bool
  | .none => true
  | _ => false

/-- `TypeConverter::isPythonBool`: `py::isinstance<py::bool_>(obj)`. -/
def isPythonBool : PyObject → Bool
  | .bool _ => true
  | _ => false

/-- `TypeConverter::isPythonInt`: `py::isinstance<py::int_>(obj)`.  Python `bool`
is a subclass of `int`, so boolean objects are accepted as well. -/
def isPythonInt : PyObject → Bool
  | .int _ => true
  | .bool _ => true
  | _ => false

/-- `TypeConverter::isPythonFloat`: `py::isinstance<py::float_>(obj)`. -/
def isPythonFloat : PyObject → Bool
  | .float _ => true
  | _ => false

/-- `TypeConverter::isPythonString`: `py::isinstance<py::str>(obj)`. -/
def isPythonString : PyObject → Bool
  | .str _ => true
  | _ => false

/-- `TypeConverter::isPythonList`: `py::isinstance<py::list>(obj)`. -/
def isPythonList : PyObject → Bool
  | .list _ => true
  | _ => false

/-- `TypeConverter::isPythonDict`: `py::isinstance<py::dict>(obj)`. -/
def isPythonDict : PyObject → Bool
  | .dict _ => true
  | _ => false

/-- `TypeConverter::isPythonTuple`: `py::isinstance<py::tuple>(obj)`. -/
def isPythonTuple : PyObject → Bool
  | .tuple _ => true
  | _ => false

/-- The C++ exceptions that the bridge code can throw.  The first five mirror the
taxonomy declared in `error_handler.h`; `runtimeError` is `std::runtime_error`
(thrown by the converter guards) and `castError` is `py::cast_error` (thrown by a
failing pybind11 `obj.cast<T>()`). -/
inductive CppError where
  | bridge (message : String)
  | interpreter (message : String)
  | moduleError (moduleName : String) (message : String)
  | functionError (functionName : String) (message : String)
  | typeConversion (fromType : String) (toType : String) (message : String)
  | runtimeError (message : String)
  | castError
  deriving Repr, DecidableEq

/-- Range of a 32-bit C `int`. -/
def inIntRange (n : Int) : Bool :=
  decide (-(2 ^ 31) ≤ n) && decide (n < 2 ^ 31)

/-- Range of a 64-bit C `long`. -/
def inLongRange (n : Int) : Bool :=
  decide (-(2 ^ 63) ≤ n) && decide (n < 2 ^ 63)

/-- pybind11 `obj.cast<int>()`: the integral caster accepts integer objects (and
bools, an int subclass), rejects floats and other types, and raises `cast_error`
on 32-bit overflow.  `Option.none` models the raised `py::cast_error`. -/
def pyCastInt : PyObject → Option Int
  | .int n => if inIntRange n then some n else Option.none
  | .bool b => some (if b then 1 else 0)
  | _ => Option.none

/-- pybind11 `obj.cast<long>()`, as `pyCastInt` but with 64-bit range. -/
def pyCastLong : PyObject → Option Int
  | .int n => if inLongRange n then some n else Option.none
  | .bool b => some (if b then 1 else 0)
  | _ => Option.none

/-- pybind11 `obj.cast<double>()`: the floating-point caster converts any numeric
object (float, int, bool) and fails on anything else.  An integer payload embeds
into the binary64 value space; the claims below only exercise this cast on values
that were produced by boxing a C++ double, where it is exact. -/
def pyCastDouble : PyObject → Option Rat
  | .float x => some x
  | .int n => some (n : Rat)
  | .bool b => some (if b then 1 else 0)
  | _ => Option.none

/-- pybind11 `obj.cast<std::string>()`: only unicode objects load. -/
def pyCastString : PyObject → Option String
  | .str s => some s
  | _ => Option.none

/-- pybind11 `obj.cast<bool>()`: only `True`/`False` load. -/
def pyCastBool : PyObject → Option Bool
  | .bool b => some b
  | _ => Option.none

/-! ## `TypeConverter` explicit specializations (type_converter.cpp) -/

/-- `TypeConverter::toPython<std::string>`: `py::str(value)`. -/
def toPythonString (s : String) : PyObject := .str s

/-- `TypeConverter::toPython<int>`: `py::int_(value)`. -/
def toPythonInt (n : Int) : PyObject := .int n

/-- `TypeConverter::toPython<double>`: `py::float_(value)`. -/
def toPythonDouble (x : Rat) : PyObject := .float x

/-- `TypeConverter::toPython<bool>`: `py::bool_(value)`. -/
def toPythonBool (b : Bool) : PyObject := .bool b

/-- `TypeConverter::toPython<float>`: `py::float_(value)`; the float-to-double
widening is exact, so the payload is carried unchanged. -/
def toPythonFloat32 (x : Rat) : PyObject := .float x

/-- `TypeConverter::toPython<long>`: `py::int_(value)`. -/
def toPythonLong (n : Int) : PyObject := .int n

/-- `TypeConverter::fromPython<std::string>`: guarded by `isPythonString`, then
`obj.cast<std::string>()`; otherwise throws `std::runtime_error`. -/
def fromPythonString (obj : PyObject) : Except CppError String :=
  if isPythonString obj then
    match pyCastString obj with
    | some s => Except.ok s
    | Option.none => Except.error CppError.castError
  else Except.error (CppError.runtimeError "Cannot convert Python object to std::string")

/-- `TypeConverter::fromPython<int>`: guarded by `isPythonInt`, then
`obj.cast<int>()`; otherwise throws `std::runtime_error`. -/
def fromPythonInt (obj : PyObject) : Except CppError Int :=
  if isPythonInt obj then
    match pyCastInt obj with
    | some n => Except.ok n
    | Option.none => Except.error CppError.castError
  else Except.error (CppError.runtimeError "Cannot convert Python object to int")

/-- `TypeConverter::fromPython<double>`: guarded by `isPythonFloat || isPythonInt`,
then `obj.cast<double>()`; otherwise throws `std::runtime_error`. -/
def fromPythonDouble (obj : PyObject) : Except CppError Rat :=
  if isPythonFloat obj || isPythonInt obj then
    match pyCastDouble obj with
    | some x => Except.ok x
    | Option.none => Except.error CppError.castError
  else Except.error (CppError.runtimeError "Cannot convert Python object to double")

/-- `TypeConverter::fromPython<bool>`: guarded by `isPythonBool`, then
`obj.cast<bool>()`; otherwise throws `std::runtime_error`. -/
def fromPythonBool (obj : PyObject) : Except CppError Bool :=
  if isPythonBool obj then
    match pyCastBool obj with
    | some b => Except.ok b
    | Option.none => Except.error CppError.castError
  else Except.error (CppError.runtimeError "Cannot convert Python object to bool")

/-- `TypeConverter::fromPython<float>`: guarded by `isPythonFloat || isPythonInt`,
then `obj.cast<float>()`.  The double-to-float narrowing is the identity on every
value that was widened from a C `float`, which is the only way the round-trip
claims reach this cast. -/
def fromPythonFloat32 (obj : PyObject) : Except CppError Rat :=
  if isPythonFloat obj || isPythonInt obj then
    match pyCastDouble obj with
    | some x => Except.ok x
    | Option.none => Except.error CppError.castError
  else Except.error (CppError.runtimeError "Cannot convert Python object to float")

/-- `TypeConverter::fromPython<long>`: guarded by `isPythonInt`, then
`obj.cast<long>()`; otherwise throws `std::runtime_error`. -/
def fromPythonLong (obj : PyObject) : Except CppError Int :=
  if isPythonInt obj then
    match pyCastLong obj with
    | some n => Except.ok n
    | Option.none => Except.error CppError.castError
  else Except.error (CppError.runtimeError "Cannot convert Python object to long")

/-- Generic `TypeConverter::canConvert<T>` (type_converter.inl): `try {
obj.cast<T>(); return true; } catch (const py::cast_error&) { return false; }`.
The template body is uniform in `T`; the pybind11 cast for `T` is passed as
`pyCast`.  The only exception `obj.cast<T>()` raises on failure is
`py::cast_error`, so the catch is exhaustive; the probe is total and
side-effect free (`obj.cast` is a const operation whose result is
discarded). -/
def canConvert {β : Type} (pyCast : PyObject → Option β) (obj : PyObject) : Bool :=
  match pyCast obj with
  | some _ => true
  | Option.none => false

/-- `TypeConverter::canConvert<int>`. -/
def canConvertInt (obj : PyObject) : Bool :=
  canConvert pyCastInt obj

/-! ## `ComplexTypeConverter` (type_converter.inl) -/

/-- `ComplexTypeConverter::vectorToPython<T>`: builds a `py::list`, appending
`TypeConverter::toPython(item)` for each element in order.  The template's
per-type conversion is passed as `toElem`. -/
def vectorToPython (toElem : α → PyObject) (vec : List α) : PyObject :=
  .list (vec.map toElem)

/-- Element loop of `ComplexTypeConverter::vectorFromPython<T>`: converts each
list item in order with `TypeConverter::fromPython<T>`; the first failing
conversion propagates. -/
def vectorElemsFromPython (fromElem : PyObject → Except CppError α) :
    List PyObject → Except CppError (List α)
  | [] => Except.ok []
  | x :: rest =>
    match fromElem x with
    | Except.error err => Except.error err
    | Except.ok v =>
      match vectorElemsFromPython fromElem rest with
      | Except.error err => Except.error err
      | Except.ok vs => Except.ok (v :: vs)

/-- `ComplexTypeConverter::vectorFromPython<T>`: requires a Python list
(otherwise `std::runtime_error`), then converts elementwise. -/
def vectorFromPython (fromElem : PyObject → Except CppError α) (obj : PyObject) :
    Except CppError (List α) :=
  if isPythonList obj then
    match obj with
    | .list items => vectorElemsFromPython fromElem items
    | _ => Except.error CppError.castError
  else Except.error (CppError.runtimeError "Expected Python list for vector conversion")

/-- `ComplexTypeConverter::mapToPython<K, V>`: iterates the `std::map` (which is
kept in ascending key order) and fills a `py::dict`, which preserves insertion
order.  A `std::map` value is modelled as its ascending association list. -/
def mapToPython (toKey : κ → PyObject) (toVal : ν → PyObject) (m : List (κ × ν)) :
    PyObject :=
  .dict (m.map (fun kv => (toKey kv.1, toVal kv.2)))

/-- `std::map` `result[key] = value`: insert in ascending key position, or
overwrite the mapped value when the key is already present (the stored key
object is kept, the value replaced). -/
def mapInsert [LinearOrder κ] (k : κ) (v : ν) : List (κ × ν) → List (κ × ν)
  | [] => [(k, v)]
  | (k₀, v₀) :: rest =>
    if k < k₀ then (k, v) :: (k₀, v₀) :: rest
    else if k₀ < k then (k₀, v₀) :: mapInsert k v rest
    else (k₀, v) :: rest

/-- Pair loop of `ComplexTypeConverter::mapFromPython<K, V>`: for each dict item
in order, convert the key then the value, then `result[key] = value`. -/
def mapPairsFromPython [LinearOrder κ] (fromKey : PyObject → Except CppError κ)
    (fromVal : PyObject → Except CppError ν) :
    List (PyObject × PyObject) → List (κ × ν) → Except CppError (List (κ × ν))
  | [], acc => Except.ok acc
  | (pk, pv) :: rest, acc =>
    match fromKey pk with
    | Except.error err => Except.error err
    | Except.ok k =>
      match fromVal pv with
      | Except.error err => Except.error err
      | Except.ok v => mapPairsFromPython fromKey fromVal rest (mapInsert k v acc)

/-- `ComplexTypeConverter::mapFromPython<K, V>`: requires a Python dict
(otherwise `std::runtime_error`), then converts pairwise into a `std::map`. -/
def mapFromPython [LinearOrder κ] (fromKey : PyObject → Except CppError κ)
    (fromVal : PyObject → Except CppError ν) (obj : PyObject) :
    Except CppError (List (κ × ν)) :=
  if isPythonDict obj then
    match obj with
    | .dict kvs => mapPairsFromPython fromKey fromVal kvs []
    | _ => Except.error CppError.castError
  else Except.error (CppError.runtimeError "Expected Python dict for map conversion")

/-- A converted native tuple component; the sum covers the scalar component
types the bridge converts. -/
inductive CppVal where
  | intV (n : Int)
  | longV (n : Int)
  | doubleV (x : Rat)
  | floatV (x : Rat)
  | boolV (b : Bool)
  | strV (s : String)
  deriving Repr, DecidableEq

/-- Elementwise part of `py_tuple.cast<std::tuple<Args...>>()`: pybind11's tuple
caster loads element `i` of the source with the caster of component type `i`;
the component casters are passed positionally in `convs`. -/
def castTupleElems (convs : List (PyObject → Except CppError CppVal)) :
    List PyObject → Except CppError (List CppVal) :=
  fun xs =>
    match convs, xs with
    | [], [] => Except.ok []
    | c :: cs, x :: rest =>
      match c x with
      | Except.error err => Except.error err
      | Except.ok v =>
        match castTupleElems cs rest with
        | Except.error err => Except.error err
        | Except.ok vs => Except.ok (v :: vs)
    | _, _ => Except.error CppError.castError

/-- `ComplexTypeConverter::tupleFromPython<Args...>`: requires a Python tuple
(`"Expected a Python tuple"`), then checks `py_tuple.size() != sizeof...(Args)`
(`"Tuple size mismatch"`), then casts elementwise.  The target arity
`sizeof...(Args)` is `convs.length`. -/
def tupleFromPython (convs : List (PyObject → Except CppError CppVal))
    (obj : PyObject) : Except CppError (List CppVal) :=
  if isPythonTuple obj then
    match obj with
    | .tuple xs =>
      if xs.length = convs.length then castTupleElems convs xs
      else Except.error (CppError.runtimeError "Tuple size mismatch")
    | _ => Except.error CppError.castError
  else Except.error (CppError.runtimeError "Expected a Python tuple")

/-! ## `CustomTypeRegistry` (type_converter.inl)

The C++ registry is one `unordered_map` keyed by `typeid(CppType).name()` whose
values are type-erased closures.  Keys of distinct C++ types are distinct
strings, so the registry restricted to converters of one native type `α` is an
association list from type names to `α → py::object` closures, with
`operator[]` overwrite semantics. -/

/-- `CustomTypeRegistry::registerToPython<CppType>`:
`s_to_python_converters[typeid(CppType).name()] = converter`, overwriting any
earlier entry under the same key. -/
def registerToPython {α : Type} (typeName : String) (conv : α → PyObject) :
    List (String × (α → PyObject)) → List (String × (α → PyObject))
  | [] => [(typeName, conv)]
  | (n, c) :: rest =>
    if n = typeName then (n, conv) :: rest
    else (n, c) :: registerToPython typeName conv rest

/-- Registry lookup by type name (`s_to_python_converters.find(type_name)`). -/
def findToPythonConverter {α : Type} (typeName : String) :
    List (String × (α → PyObject)) → Option (α → PyObject)
  | [] => Option.none
  | (n, c) :: rest =>
    if n = typeName then some c else findToPythonConverter typeName rest

/-- `CustomTypeRegistry::hasToPythonConverter<CppType>`. -/
def hasToPythonConverter {α : Type} (typeName : String)
    (reg : List (String × (α → PyObject))) : Bool :=
  (findToPythonConverter typeName reg).isSome

/-- Generic `TypeConverter::toPython<T>` (type_converter.inl, the primary
template): use the registered custom converter when one exists, else fall
back to `py::cast(value)` (`pyCastDefault`).  This template is what runs for
every `T` that has no explicit specialization; for the six specialized
primitive types the specialization runs instead and never consults the
registry. -/
def toPythonGeneric {α : Type} (typeName : String) (reg : List (String × (α → PyObject)))
    (pyCastDefault : α → PyObject) (v : α) : PyObject :=
  if hasToPythonConverter typeName reg then
    match findToPythonConverter typeName reg with
    | some c => c v
    | Option.none => pyCastDefault v
  else pyCastDefault v

/-! ## `ErrorHandler` (error_handler.h / error_handler.cpp) -/

/-- `PythonErrorInfo`: the Diagnostic Record, with the default field values of
the C++ struct (`line = -1`). -/
structure PythonErrorInfo where
  type : String := ""
  message : String := ""
  traceback : String := ""
  file : String := ""
  line : Int := -1
  function : String := ""
  deriving Repr, DecidableEq

/-- What a registered error callback does when invoked: return normally, or
raise out of its own body. -/
inductive CallbackAct where
  | returns
  | throws
  deriving Repr, DecidableEq

/-- A registered `ErrorHandler::ErrorCallback`, identified for counting
purposes and carrying its behaviour. -/
structure ErrorCallback where
  id : Nat
  act : CallbackAct
  deriving Repr, DecidableEq

/-- Observable side effects of the error-handling code, in the order they
happen: a callback invocation, the `"Error in error callback function"` line
printed by the fan-out's catch block, and a `logError` line (its wall-clock
timestamp prefix is not modelled). -/
inductive Event where
  | callbackInvoked (id : Nat)
  | callbackErrorLogged
  | errorLogged (text : String)
  deriving Repr, DecidableEq

/-- One iteration of the fan-out loop in `ErrorHandler::triggerErrorCallbacks`:
the callback is invoked on the diagnostic record; if it raises, the
`catch (...)` block logs `"Error in error callback function"` and the loop
continues.  The modelled callback behaviour is fixed by `cb.act`, so the
record argument does not influence the emitted events. -/
def runCallback (_info : PythonErrorInfo) (cb : ErrorCallback) : List Event :=
  match cb.act with
  | .returns => [Event.callbackInvoked cb.id]
  | .throws => [Event.callbackInvoked cb.id, Event.callbackErrorLogged]

/-- `ErrorHandler::triggerErrorCallbacks`: iterate `s_error_callbacks` in
order, invoking every callback inside a `try`/`catch (...)`. -/
def triggerErrorCallbacks (info : PythonErrorInfo) (cbs : List ErrorCallback) :
    List Event :=
  cbs.flatMap (runCallback info)

/-- Ids of the callback invocations among a list of events. -/
def invokedIds (evs : List Event) : List Nat :=
  evs.filterMap fun ev =>
    match ev with
    | .callbackInvoked i => some i
    | _ => Option.none

/-- `ErrorHandler::setGlobalErrorCallback`: `s_error_callbacks.clear()` then
`push_back(callback)` — the previous registrations are discarded. -/
def setGlobalErrorCallback (cb : ErrorCallback) (_prev : List ErrorCallback) :
    List ErrorCallback :=
  [cb]

/-- `ErrorHandler::addErrorCallback`: `s_error_callbacks.push_back(callback)`. -/
def addErrorCallback (cb : ErrorCallback) (cbs : List ErrorCallback) :
    List ErrorCallback :=
  cbs ++ [cb]

/-- `ErrorHandler::clearErrorCallbacks`. -/
def clearErrorCallbacks (_cbs : List ErrorCallback) : List ErrorCallback :=
  []

/-- `ErrorHandler::formatErrorInfo`: `"Python Error: " << type`, then
`" - " << message` when the message is non-empty; when `s_verbose_errors` is
set, also the file (with `:line` when `line > 0`), function, and traceback
blocks, each only when non-empty. -/
def formatErrorInfo (verbose : Bool) (info : PythonErrorInfo) : String :=
  let base := "Python Error: " ++ info.type ++
    (if info.message ≠ "" then " - " ++ info.message else "")
  if verbose then
    base ++
    (if info.file ≠ "" then
      "\n  File: " ++ info.file ++
        (if info.line > 0 then ":" ++ toString info.line else "")
     else "") ++
    (if info.function ≠ "" then "\n  Function: " ++ info.function else "") ++
    (if info.traceback ≠ "" then "\n  Traceback:\n" ++ info.traceback else "")
  else base

/-- The type object attached to a caught Python exception.  `name` models
`hasattr(type, "__name__")` followed by `py::str(...).cast<std::string>()`:
`Option.none` = no `__name__` attribute; `some Option.none` = the conversion
raised; `some (some s)` = the name is `s`. -/
structure PyTypeModel where
  name : Option (Option String)
  deriving Repr, DecidableEq

/-- One entry of `traceback.extract_tb`: each field is present exactly when
`hasattr` finds it on the frame summary. -/
structure FrameModel where
  filename : Option String
  lineno : Option Int
  funcName : Option String
  deriving Repr, DecidableEq

/-- The traceback object attached to a caught Python exception.  `formatted` is
the text produced by `traceback.format_tb` (`Option.none` = formatting raised);
`frames` is the `traceback.extract_tb` list (`Option.none` = that inner
extraction block raised). -/
structure TraceModel where
  formatted : Option String
  frames : Option (List FrameModel)
  deriving Repr, DecidableEq

/-- A caught `py::error_already_set`, as observed by the extraction code:
`excType` is `e.type()` (null pointer modelled as `Option.none`); `value` is
`e.value()` together with its `py::str` rendering (`some Option.none` = the
rendering raised); `trace` is `e.trace()`. -/
structure PyExcModel where
  excType : Option PyTypeModel
  value : Option (Option String)
  trace : Option TraceModel
  deriving Repr, DecidableEq

/-- `ErrorHandler::parsePythonTraceback`: renders the traceback through
`traceback.format_tb`, returning `"Failed to parse traceback"` if anything in
there raises (its own `catch (...)`). -/
def parsePythonTraceback (t : TraceModel) : String :=
  match t.formatted with
  | some s => s
  | Option.none => "Failed to parse traceback"

/-- The inner `try` block of `extractPythonErrorInfo` that walks the last
(innermost) entry of `traceback.extract_tb(trace)` and copies `filename`,
`lineno` and `name` into the record; its `catch (...)` ignores every failure,
so a raising `extract_tb` (`frames = Option.none`) leaves the record as is. -/
def extractFrameFields (t : TraceModel) (info : PythonErrorInfo) :
    PythonErrorInfo :=
  match t.frames with
  | Option.none => info
  | some fs =>
    match fs.getLast? with
    | Option.none => info
    | some fr =>
      let info₁ :=
        match fr.filename with
        | some f => { info with file := f }
        | Option.none => info
      let info₂ :=
        match fr.lineno with
        | some l => { info₁ with line := l }
        | Option.none => info₁
      match fr.funcName with
      | some n => { info₂ with function := n }
      | Option.none => info₂

/-- Traceback section of `extractPythonErrorInfo`: when `e.trace()` is present,
set `info.traceback` via `parsePythonTraceback` and then run the frame-field
extraction; none of this can raise past its internal catches. -/
def addTraceFields (e : PyExcModel) (info : PythonErrorInfo) : PythonErrorInfo :=
  match e.trace with
  | Option.none => info
  | some t => extractFrameFields t { info with traceback := parsePythonTraceback t }

/-- Body of the outer `try` of `ErrorHandler::extractPythonErrorInfo`, in
source order: type name, then message, then traceback.  The two operations
that can raise past the inner catches are the type-name conversion and the
`py::str(value)` rendering; both happen before any traceback field is
assigned, so at either raise point every field other than `type` still holds
its default value. -/
def extractPythonErrorInfoTry (e : PyExcModel) :
    Except Unit PythonErrorInfo :=
  let step₁ : Except Unit PythonErrorInfo :=
    match e.excType with
    | Option.none => Except.ok {}
    | some t =>
      match t.name with
      | Option.none => Except.ok { type := "Unknown" }
      | some Option.none => Except.error ()
      | some (some s) => Except.ok { type := s }
  match step₁ with
  | Except.error u => Except.error u
  | Except.ok info₁ =>
    match e.value with
    | Option.none => Except.ok (addTraceFields e info₁)
    | some Option.none => Except.error ()
    | some (some m) => Except.ok (addTraceFields e { info₁ with message := m })

/-- `ErrorHandler::extractPythonErrorInfo`: the outer `catch (...)` replaces a
failed extraction with `type = "Unknown"`,
`message = "Failed to extract Python error information"`; as noted on
`extractPythonErrorInfoTry`, at both possible raise points the remaining
fields are still at their defaults, so the caught record is exactly the
default record with those two fields set. -/
def extractPythonErrorInfo (e : PyExcModel) : PythonErrorInfo :=
  match extractPythonErrorInfoTry e with
  | Except.ok info => info
  | Except.error _ =>
    { type := "Unknown", message := "Failed to extract Python error information" }

/-- `ErrorHandler::convertPythonException`, after the diagnostic record has
been extracted: the kind-to-exception mapping, by case-sensitive exact string
comparison, in source order.  The thrown exception is returned as a value. -/
def convertPythonExceptionInfo (verbose : Bool) (info : PythonErrorInfo) :
    CppError :=
  if info.type = "ModuleNotFoundError" || info.type = "ImportError" then
    CppError.moduleError "unknown" info.message
  else if info.type = "AttributeError" then
    CppError.functionError "unknown" info.message
  else if info.type = "TypeError" || info.type = "ValueError" then
    CppError.typeConversion "unknown" "unknown" info.message
  else
    CppError.bridge (formatErrorInfo verbose info)

/-- Process-wide `ErrorHandler` configuration: the callback list and the two
boolean flags. -/
structure HandlerState where
  callbacks : List ErrorCallback
  verboseErrors : Bool
  errorLogging : Bool
  deriving Repr, DecidableEq

/-- `ErrorHandler::logError`: gated on `s_error_logging`, writes the timestamp
plus `formatErrorInfo(info)` to the diagnostic stream. -/
def logError (st : HandlerState) (info : PythonErrorInfo) : List Event :=
  if st.errorLogging then
    [Event.errorLogged (formatErrorInfo st.verboseErrors info)]
  else []

/-- `ErrorHandler::handlePythonException`: extract the record, log it when
logging is enabled, trigger the callback fan-out once, and return the record.
The returned pair is the record and the emitted events. -/
def handlePythonException (st : HandlerState) (e : PyExcModel) :
    PythonErrorInfo × List Event :=
  let info := extractPythonErrorInfo e
  (info,
    (if st.errorLogging then logError st info else []) ++
      triggerErrorCallbacks info st.callbacks)

/-- What a wrapped computation does when run: return a value, raise a Python
exception (`py::error_already_set`), or raise a native `std::exception` whose
`what()` text is given. -/
inductive ExecOutcome (α : Type) where
  | ok (v : α)
  | pyExc (e : PyExcModel)
  | cppExc (message : String)

/-- `ErrorHandler::safeExecuteOptional`: returns the value on success; on a
`py::error_already_set` it calls `handlePythonException` (which already logs
and fans out) and then calls `triggerErrorCallbacks` a second time before
returning `std::nullopt`; on a native `std::exception` it builds a minimal
record (`type = "C++ Exception"`), fans out once, and returns `std::nullopt`.
Exceptions not derived from `std::exception` are outside this model, as they
are outside the claims.  The returned pair is the optional value and the
emitted events. -/
def safeExecuteOptional {α : Type} (st : HandlerState) :
    ExecOutcome α → Option α × List Event
  | .ok v => (some v, [])
  | .pyExc e =>
    let he := handlePythonException st e
    (Option.none, he.2 ++ triggerErrorCallbacks he.1 st.callbacks)
  | .cppExc msg =>
    (Option.none,
      triggerErrorCallbacks { type := "C++ Exception", message := msg } st.callbacks)

/-! ## Concrete values and probes used by individual claims -/

/-- Whether a result failed with a `TypeConversionException`. -/
def isTypeConversionError {α : Type} : Except CppError α → Bool
  | Except.error (CppError.typeConversion _ _ _) => true
  | _ => false

/-- pybind11 component caster for an `int` tuple slot
(`make_caster<int>` inside the tuple caster). -/
def intSlotCaster (obj : PyObject) : Except CppError CppVal :=
  match pyCastInt obj with
  | some n => Except.ok (CppVal.intV n)
  | Option.none => Except.error CppError.castError

/-- A custom to-Python converter for `int` registered first in the C7
counterexample. -/
def fIntConv : Int → PyObject := fun _ => PyObject.str "custom-f"

/-- A custom to-Python converter for `int` registered second (last) in the C7
counterexample. -/
def gIntConv : Int → PyObject := fun _ => PyObject.str "custom-g"

/-- The registry contents after `registerToPython<int>(fIntConv)` then
`registerToPython<int>(gIntConv)`; `"i"` stands for `typeid(int).name()`. -/
def intRegFG : List (String × (Int → PyObject)) :=
  registerToPython "i" gIntConv (registerToPython "i" fIntConv [])

/-- Handler state with one well-behaved registered callback (id 0) and
logging disabled, for the C3 counterexample. -/
def stOne : HandlerState :=
  ⟨[⟨0, CallbackAct.returns⟩], true, false⟩

/-- A concrete caught Python exception: a `ValueError("boom")` with no
attached traceback. -/
def pyExcVal : PyExcModel :=
  ⟨some ⟨some (some "ValueError")⟩, some (some "boom"), Option.none⟩

/-- The exception type name, when it is obtainable from the type object:
present `__name__` whose string conversion succeeds. -/
def typeNameObtainable (t : PyTypeModel) : Option String :=
  match t.name with
  | some (some s) => some s
  | _ => Option.none


/-! ## Helper lemmas -/

theorem vectorElemsFromPython_map {α : Type} (toE : α → PyObject)
    (fromE : PyObject → Except CppError α)
    (h : ∀ a, fromE (toE a) = Except.ok a) :
    ∀ l : List α, vectorElemsFromPython fromE (l.map toE) = Except.ok l := by
  intro l
  induction l with
  | nil => rfl
  | cons a rest ih => simp [vectorElemsFromPython, h a, ih]

theorem mapInsert_append {κ ν : Type} [LinearOrder κ] (k : κ) (v : ν) :
    ∀ acc : List (κ × ν), (∀ p ∈ acc, p.1 < k) →
      mapInsert k v acc = acc ++ [(k, v)] := by
  intro acc
  induction acc with
  | nil => intro _; rfl
  | cons p rest ih =>
    intro hall
    obtain ⟨k₀, v₀⟩ := p
    have h₁ : k₀ < k := hall (k₀, v₀) (by simp)
    have h₂ : ¬k < k₀ := lt_asymm h₁
    simp [mapInsert, h₁, h₂, ih fun q hq => hall q (by simp [hq])]

theorem mapPairsFromPython_map {κ ν : Type} [LinearOrder κ]
    (toK : κ → PyObject) (fromK : PyObject → Except CppError κ)
    (toV : ν → PyObject) (fromV : PyObject → Except CppError ν)
    (hK : ∀ k, fromK (toK k) = Except.ok k)
    (hV : ∀ v, fromV (toV v) = Except.ok v) :
    ∀ (l acc : List (κ × ν)), l.Pairwise (fun a b => a.1 < b.1) →
      (∀ p ∈ acc, ∀ q ∈ l, p.1 < q.1) →
      mapPairsFromPython fromK fromV (l.map fun kv => (toK kv.1, toV kv.2)) acc =
        Except.ok (acc ++ l) := by
  intro l
  induction l with
  | nil => intro acc _ _; simp [mapPairsFromPython]
  | cons kv rest ih =>
    intro acc hsort hlt
    obtain ⟨k, v⟩ := kv
    have hpair := List.pairwise_cons.mp hsort
    have hacc : ∀ p ∈ acc, p.1 < k := fun p hp => hlt p hp (k, v) (by simp)
    have hlt₂ : ∀ p ∈ acc ++ [(k, v)], ∀ q ∈ rest, p.1 < q.1 := by
      intro p hp q hq
      rcases List.mem_append.mp hp with hin | hin
      · exact hlt p hin q (by simp [hq])
      · have : p = (k, v) := by simpa using hin
        subst this
        exact hpair.1 q hq
    have hrec := ih (acc ++ [(k, v)]) hpair.2 hlt₂
    simp only [List.map_cons]
    simp [mapPairsFromPython, hK k, hV v, mapInsert_append k v acc hacc, hrec]

/-! ## Claim theorems -/

/-- C1: for every supported primitive type `T` (`int`, `double`, `float`,
`bool`, `long`, `std::string`) and every value `v` of type `T` (machine
integers carry their range as a hypothesis),
`fromPython<T>(toPython<T>(v)) == v`; likewise elementwise for vectors of such
`T` (for any element converter pair that round-trips) and for maps (for any
key/value converter pairs that round-trip, on any association list in
`std::map` ascending-key form). -/
theorem fromPython_toPython_roundtrip :
    (∀ s, fromPythonString (toPythonString s) = Except.ok s) ∧
    (∀ n, inIntRange n = true → fromPythonInt (toPythonInt n) = Except.ok n) ∧
    (∀ x, fromPythonDouble (toPythonDouble x) = Except.ok x) ∧
    (∀ x, fromPythonFloat32 (toPythonFloat32 x) = Except.ok x) ∧
    (∀ b, fromPythonBool (toPythonBool b) = Except.ok b) ∧
    (∀ n, inLongRange n = true → fromPythonLong (toPythonLong n) = Except.ok n) ∧
    (∀ (α : Type) (toE : α → PyObject) (fromE : PyObject → Except CppError α),
      (∀ a, fromE (toE a) = Except.ok a) →
      ∀ l : List α, vectorFromPython fromE (vectorToPython toE l) = Except.ok l) ∧
    (∀ (κ ν : Type) [LinearOrder κ] (toK : κ → PyObject)
      (fromK : PyObject → Except CppError κ) (toV : ν → PyObject)
      (fromV : PyObject → Except CppError ν),
      (∀ k, fromK (toK k) = Except.ok k) →
      (∀ v, fromV (toV v) = Except.ok v) →
      ∀ m : List (κ × ν), m.Pairwise (fun a b => a.1 < b.1) →
        mapFromPython fromK fromV (mapToPython toK toV m) = Except.ok m) := by
  refine ⟨fun s => rfl, fun n hn => ?_, fun x => rfl, fun x => rfl, fun b => rfl,
    fun n hn => ?_, fun α toE fromE h l => ?_, ?_⟩
  · simp [fromPythonInt, toPythonInt, isPythonInt, pyCastInt, hn]
  · simp [fromPythonLong, toPythonLong, isPythonInt, pyCastLong, hn]
  · simp [vectorFromPython, vectorToPython, isPythonList,
      vectorElemsFromPython_map toE fromE h l]
  · intro κ ν _ toK fromK toV fromV hK hV m hm
    have h := mapPairsFromPython_map toK fromK toV fromV hK hV m [] hm
      (by intro p hp; simp at hp)
    simpa [mapFromPython, mapToPython, isPythonDict] using h

/-- Witness for C1: the round-trip evaluated at concrete inputs — `int 42`,
`long 1000000`, a vector of doubles, and the map `{"a": 1.0, "b": 2.0}`. -/
theorem fromPython_toPython_roundtrip_witness :
    fromPythonInt (toPythonInt 42) = Except.ok 42 ∧
    fromPythonLong (toPythonLong 1000000) = Except.ok 1000000 ∧
    vectorFromPython fromPythonDouble
        (vectorToPython toPythonDouble [(1 : Rat) / 2, 3, 7]) =
      Except.ok [(1 : Rat) / 2, 3, 7] ∧
    mapFromPython fromPythonString fromPythonDouble
        (mapToPython toPythonString toPythonDouble [("a", (1 : Rat)), ("b", 2)]) =
      Except.ok [("a", (1 : Rat)), ("b", 2)] :=
  ⟨fromPython_toPython_roundtrip.2.1 42 (by decide),
   fromPython_toPython_roundtrip.2.2.2.2.2.1 1000000 (by decide),
   fromPython_toPython_roundtrip.2.2.2.2.2.2.1 Rat toPythonDouble fromPythonDouble
     (fun a => rfl) [(1 : Rat) / 2, 3, 7],
   fromPython_toPython_roundtrip.2.2.2.2.2.2.2 String Rat toPythonString
     fromPythonString toPythonDouble fromPythonDouble (fun k => rfl) (fun v => rfl)
     [("a", (1 : Rat)), ("b", 2)]
     (by rw [List.pairwise_cons]
         refine ⟨?_, by simp⟩
         intro q hq
         have : q = ("b", (2 : Rat)) := by simpa using hq
         subst this
         show ("a" : String) < "b"
         rw [String.lt_iff_toList_lt]
         decide)⟩

theorem invokedIds_append (a b : List Event) :
    invokedIds (a ++ b) = invokedIds a ++ invokedIds b :=
  List.filterMap_append a b _

theorem invokedIds_runCallback (info : PythonErrorInfo) (cb : ErrorCallback) :
    invokedIds (runCallback info cb) = [cb.id] := by
  cases h : cb.act <;> simp [runCallback, invokedIds, h]

theorem invokedIds_trigger (info : PythonErrorInfo) (cbs : List ErrorCallback) :
    invokedIds (triggerErrorCallbacks info cbs) = cbs.map ErrorCallback.id := by
  induction cbs with
  | nil => rfl
  | cons cb rest ih =>
    have hstep : triggerErrorCallbacks info (cb :: rest) =
        runCallback info cb ++ triggerErrorCallbacks info rest := by
      simp [triggerErrorCallbacks]
    rw [hstep, invokedIds_append, invokedIds_runCallback, ih]
    rfl

theorem invokedIds_logError (st : HandlerState) (info : PythonErrorInfo) :
    invokedIds (logError st info) = [] := by
  by_cases h : st.errorLogging <;> simp [logError, h, invokedIds]

/-- C2: at the failing input of the claim — a text value converted to Python
and read back as `int` — `fromPython<int>` throws
`std::runtime_error("Cannot convert Python object to int")`, which is not a
`TypeConversionException`; the repo's API reference documents
`TypeConversionException` here, so the code contradicts its own
documentation. -/
theorem fromPythonInt_on_text_is_runtime_error :
    fromPythonInt (toPythonString "text") =
      Except.error (CppError.runtimeError "Cannot convert Python object to int") ∧
    isTypeConversionError (fromPythonInt (toPythonString "text")) = false :=
  ⟨rfl, rfl⟩

/-- C3 counterexample: with a single registered callback (id 0) and a wrapped
computation that raises a Python exception, `safeExecuteOptional` returns
absence but invokes the callback twice — `handlePythonException` already runs
the fan-out and `safeExecuteOptional` then runs it a second time — so
"every registered error callback is invoked exactly once" is false. -/
theorem safeExecuteOptional_invokes_single_callback_twice :
    stOne.callbacks.map ErrorCallback.id = [0] ∧
    (safeExecuteOptional stOne (ExecOutcome.pyExc pyExcVal) :
      Option Unit × List Event).1 = Option.none ∧
    (invokedIds (safeExecuteOptional stOne (ExecOutcome.pyExc pyExcVal) :
      Option Unit × List Event).2).count 0 = 2 :=
  ⟨rfl, rfl, rfl⟩

/-- C3 amended: `safeExecuteOptional` returns absence and never raises on
both exception categories, and still triggers every registered callback —
exactly twice per dynamic-runtime (Python) exception (once inside
`handlePythonException`, once by its own second fan-out), and exactly once
per native `std::exception`. -/
theorem safeExecuteOptional_absence_and_fanout_counts :
    ∀ (st : HandlerState) (e : PyExcModel) (msg : String) (i : Nat),
      (safeExecuteOptional st (ExecOutcome.pyExc e) :
        Option Unit × List Event).1 = Option.none ∧
      (invokedIds (safeExecuteOptional st (ExecOutcome.pyExc e) :
        Option Unit × List Event).2).count i =
        2 * (st.callbacks.map ErrorCallback.id).count i ∧
      (safeExecuteOptional st (ExecOutcome.cppExc msg) :
        Option Unit × List Event).1 = Option.none ∧
      (invokedIds (safeExecuteOptional st (ExecOutcome.cppExc msg) :
        Option Unit × List Event).2).count i =
        (st.callbacks.map ErrorCallback.id).count i := by
  intro st e msg i
  refine ⟨rfl, ?_, rfl, ?_⟩
  · show (invokedIds ((handlePythonException st e).2 ++
        triggerErrorCallbacks (handlePythonException st e).1 st.callbacks)).count i = _
    rw [invokedIds_append]
    have h₂ : invokedIds (handlePythonException st e).2 =
        st.callbacks.map ErrorCallback.id := by
      show invokedIds ((if st.errorLogging then
          logError st (extractPythonErrorInfo e) else []) ++
        triggerErrorCallbacks (extractPythonErrorInfo e) st.callbacks) = _
      rw [invokedIds_append, invokedIds_trigger]
      by_cases hl : st.errorLogging <;> simp [hl, logError, invokedIds]
    rw [h₂, invokedIds_trigger, List.count_append, two_mul]
  · show (invokedIds (triggerErrorCallbacks
        { type := "C++ Exception", message := msg } st.callbacks)).count i = _
    rw [invokedIds_trigger]

/-- C4: during error-callback fan-out, every registered callback is invoked
exactly once, in registration order — the invocation ids are exactly the
registered ids in order, whatever each callback does — and a callback that
raises is caught and logged without aborting delivery to the rest. -/
theorem triggerErrorCallbacks_once_in_order_resilient :
    ∀ (info : PythonErrorInfo) (cbs : List ErrorCallback),
      invokedIds (triggerErrorCallbacks info cbs) = cbs.map ErrorCallback.id ∧
      (∀ cb ∈ cbs, cb.act = CallbackAct.throws →
        Event.callbackErrorLogged ∈ triggerErrorCallbacks info cbs) := by
  intro info cbs
  refine ⟨invokedIds_trigger info cbs, ?_⟩
  intro cb hcb hact
  have hmem : Event.callbackErrorLogged ∈ runCallback info cb := by
    simp [runCallback, hact]
  exact List.mem_flatMap.mpr ⟨cb, hcb, hmem⟩

/-- Witness for C4, at the spec's scenario `[log1, throwing, log2]`: all
three callbacks run once each, in order, and the raising middle one is
logged. -/
theorem triggerErrorCallbacks_scenario_witness :
    invokedIds (triggerErrorCallbacks {}
      [⟨1, CallbackAct.returns⟩, ⟨2, CallbackAct.throws⟩,
       ⟨3, CallbackAct.returns⟩]) = [1, 2, 3] ∧
    Event.callbackErrorLogged ∈ triggerErrorCallbacks {}
      [⟨1, CallbackAct.returns⟩, ⟨2, CallbackAct.throws⟩,
       ⟨3, CallbackAct.returns⟩] :=
  ⟨(triggerErrorCallbacks_once_in_order_resilient {} _).1,
   (triggerErrorCallbacks_once_in_order_resilient {} _).2
     ⟨2, CallbackAct.throws⟩ (by simp) rfl⟩

/-- C5: `convertPythonException` maps the extracted record's kind by
case-sensitive exact match — `ModuleNotFoundError`/`ImportError` to a
`PythonModuleException`, `AttributeError` to a `PythonFunctionException`,
`TypeError`/`ValueError` to a `TypeConversionException` (each carrying
`"unknown"` placeholders and the record's message), and every other kind to a
generic `PythonBridgeException` whose message is the fully formatted record
text. -/
theorem convertPythonException_kind_mapping :
    ∀ (verbose : Bool) (info : PythonErrorInfo),
      ((info.type = "ModuleNotFoundError" ∨ info.type = "ImportError") →
        convertPythonExceptionInfo verbose info =
          CppError.moduleError "unknown" info.message) ∧
      (info.type = "AttributeError" →
        convertPythonExceptionInfo verbose info =
          CppError.functionError "unknown" info.message) ∧
      ((info.type = "TypeError" ∨ info.type = "ValueError") →
        convertPythonExceptionInfo verbose info =
          CppError.typeConversion "unknown" "unknown" info.message) ∧
      (info.type ∉ ["ModuleNotFoundError", "ImportError", "AttributeError",
          "TypeError", "ValueError"] →
        convertPythonExceptionInfo verbose info =
          CppError.bridge (formatErrorInfo verbose info)) := by
  intro verbose info
  refine ⟨?_, ?_, ?_, ?_⟩
  · rintro (h | h) <;> simp [convertPythonExceptionInfo, h]
  · intro h
    simp [convertPythonExceptionInfo, h]
  · rintro (h | h) <;> simp [convertPythonExceptionInfo, h]
  · intro h
    simp only [List.mem_cons, List.not_mem_nil, or_false, not_or] at h
    obtain ⟨h₁, h₂, h₃, h₄, h₅⟩ := h
    simp [convertPythonExceptionInfo, h₁, h₂, h₃, h₄, h₅]

/-- Witness for C5: the mapping evaluated on one record of each kind class. -/
theorem convertPythonException_kind_mapping_witness :
    convertPythonExceptionInfo true { type := "ImportError", message := "m1" } =
      CppError.moduleError "unknown" "m1" ∧
    convertPythonExceptionInfo true { type := "AttributeError", message := "m2" } =
      CppError.functionError "unknown" "m2" ∧
    convertPythonExceptionInfo true { type := "ValueError", message := "m3" } =
      CppError.typeConversion "unknown" "unknown" "m3" ∧
    convertPythonExceptionInfo false { type := "ZeroDivisionError", message := "m4" } =
      CppError.bridge (formatErrorInfo false
        { type := "ZeroDivisionError", message := "m4" }) :=
  ⟨(convertPythonException_kind_mapping true _).1 (Or.inr rfl),
   (convertPythonException_kind_mapping true _).2.1 rfl,
   (convertPythonException_kind_mapping true _).2.2.1 (Or.inr rfl),
   (convertPythonException_kind_mapping false _).2.2.2 (by decide)⟩

theorem castTupleElems_positional :
    ∀ (convs : List (PyObject → Except CppError CppVal)) (xs : List PyObject)
      (ys : List CppVal), castTupleElems convs xs = Except.ok ys →
      ys.length = convs.length ∧
      ∀ i (hc : i < convs.length) (hx : i < xs.length) (hy : i < ys.length),
        (convs.get ⟨i, hc⟩) (xs.get ⟨i, hx⟩) = Except.ok (ys.get ⟨i, hy⟩) := by
  intro convs
  induction convs with
  | nil =>
    intro xs ys h
    cases xs with
    | nil =>
      simp only [castTupleElems] at h
      cases h
      exact ⟨rfl, fun i hc _ _ => absurd hc (Nat.not_lt_zero i)⟩
    | cons x rest => simp [castTupleElems] at h
  | cons c cs ih =>
    intro xs ys h
    cases xs with
    | nil => simp [castTupleElems] at h
    | cons x rest =>
      simp only [castTupleElems] at h
      cases hcx : c x with
      | error err => rw [hcx] at h; cases h
      | ok v =>
        rw [hcx] at h
        cases hrest : castTupleElems cs rest with
        | error err => rw [hrest] at h; cases h
        | ok vs =>
          rw [hrest] at h
          cases h
          obtain ⟨hlen, hpos⟩ := ih rest vs hrest
          refine ⟨by simp [hlen], ?_⟩
          intro i hc hx hy
          cases i with
          | zero => simpa using hcx
          | succ j =>
            have := hpos j (Nat.lt_of_succ_lt_succ hc)
              (Nat.lt_of_succ_lt_succ hx) (Nat.lt_of_succ_lt_succ hy)
            simpa using this

/-- C6: converting a dynamic tuple whose length differs from the target
native tuple arity fails with the descriptive `"Tuple size mismatch"` error —
it is never silently truncated or padded — and when the lengths match the
conversion is positional: component `i` of a successful result comes from
converting element `i` of the source. -/
theorem tupleFromPython_arity_checked_and_positional :
    (∀ (convs : List (PyObject → Except CppError CppVal)) (xs : List PyObject),
      xs.length ≠ convs.length →
      tupleFromPython convs (PyObject.tuple xs) =
        Except.error (CppError.runtimeError "Tuple size mismatch")) ∧
    (∀ (convs : List (PyObject → Except CppError CppVal)) (xs : List PyObject)
      (ys : List CppVal),
      tupleFromPython convs (PyObject.tuple xs) = Except.ok ys →
      ys.length = convs.length ∧
      ∀ i (hc : i < convs.length) (hx : i < xs.length) (hy : i < ys.length),
        (convs.get ⟨i, hc⟩) (xs.get ⟨i, hx⟩) = Except.ok (ys.get ⟨i, hy⟩)) := by
  constructor
  · intro convs xs hne
    simp [tupleFromPython, isPythonTuple, hne]
  · intro convs xs ys h
    by_cases hlen : xs.length = convs.length
    · rw [tupleFromPython] at h
      simp only [isPythonTuple, if_true, hlen, if_pos] at h
      exact castTupleElems_positional convs xs ys h
    · simp [tupleFromPython, isPythonTuple, hlen] at h

/-- Witness for C6: a 2-element dynamic tuple into a 3-arity target fails
with the size-mismatch error; a matching 2-arity conversion is positional —
slot 1 of the result is the conversion of element 1 of the source. -/
theorem tupleFromPython_witness :
    tupleFromPython [intSlotCaster, intSlotCaster, intSlotCaster]
        (PyObject.tuple [PyObject.int 1, PyObject.int 2]) =
      Except.error (CppError.runtimeError "Tuple size mismatch") ∧
    intSlotCaster (PyObject.int 2) = Except.ok (CppVal.intV 2) :=
  ⟨tupleFromPython_arity_checked_and_positional.1
      [intSlotCaster, intSlotCaster, intSlotCaster]
      [PyObject.int 1, PyObject.int 2] (by decide),
   (tupleFromPython_arity_checked_and_positional.2
      [intSlotCaster, intSlotCaster]
      [PyObject.int 1, PyObject.int 2]
      [CppVal.intV 1, CppVal.intV 2] rfl).2 1
      (by decide) (by decide) (by decide)⟩

theorem findToPythonConverter_register {α : Type} (typeName : String)
    (conv : α → PyObject) :
    ∀ reg : List (String × (α → PyObject)),
      findToPythonConverter typeName (registerToPython typeName conv reg) =
        some conv := by
  intro reg
  induction reg with
  | nil => simp [registerToPython, findToPythonConverter]
  | cons p rest ih =>
    obtain ⟨n, c⟩ := p
    by_cases h : n = typeName
    · subst h
      simp [registerToPython, findToPythonConverter]
    · simp [registerToPython, findToPythonConverter, h, ih]

/-- C7 counterexample: for `T = int` the claim fails — after registering
`fIntConv` then `gIntConv` for `int` (so the registry does hold the
last-registered converter), `toPython<int>` still produces a Python `int`
object and not `gIntConv`'s string, because the explicit specialization of
`toPython<int>` never consults the registry. -/
theorem toPythonInt_bypasses_registry :
    hasToPythonConverter "i" intRegFG = true ∧
    findToPythonConverter "i" intRegFG = some gIntConv ∧
    isPythonString (toPythonInt 7) = false ∧
    isPythonString (gIntConv 7) = true :=
  ⟨rfl, rfl, rfl, rfl⟩

/-- C7 amended: for every native type `T` whose `toPython` is the generic
template (every `T` without one of the six built-in specializations),
registering `f` then `g` makes `toPython<T>` use `g` — re-registration
overwrites, last write wins — while for the six specialized primitive types
the registry is bypassed entirely; the registry interface offers no removal
operation. -/
theorem toPythonGeneric_last_registration_wins :
    ∀ (α : Type) (typeName : String) (f g : α → PyObject)
      (reg : List (String × (α → PyObject))) (pyCastDefault : α → PyObject)
      (v : α),
      toPythonGeneric typeName
        (registerToPython typeName g (registerToPython typeName f reg))
        pyCastDefault v = g v := by
  intro α typeName f g reg pyCastDefault v
  simp [toPythonGeneric, hasToPythonConverter,
    findToPythonConverter_register typeName g (registerToPython typeName f reg)]

/-- C8: `canConvert<T>` is a total, side-effect-free probe — for every type
`T` (its pybind11 cast passed as `pyCast`) it returns `false` rather than
propagating when the internal cast fails, and in particular
`canConvert<int>` on a text value is `false`. -/
theorem canConvert_false_on_failure :
    (∀ (β : Type) (pyCast : PyObject → Option β) (obj : PyObject),
      pyCast obj = Option.none → canConvert pyCast obj = false) ∧
    (∀ s, canConvertInt (toPythonString s) = false) := by
  constructor
  · intro β pyCast obj h
    simp [canConvert, h]
  · intro s
    rfl

/-- Witness for C8: `canConvert<int>` probed on the text value `"text"`. -/
theorem canConvert_false_on_failure_witness :
    canConvertInt (toPythonString "text") = false :=
  canConvert_false_on_failure.1 Int pyCastInt (toPythonString "text") rfl

theorem extractFrameFields_type (t : TraceModel) (info : PythonErrorInfo) :
    (extractFrameFields t info).type = info.type := by
  obtain ⟨fmt, frames⟩ := t
  cases frames with
  | none => rfl
  | some fs =>
    cases h : fs.getLast? with
    | none => simp [extractFrameFields, h]
    | some fr =>
      obtain ⟨fn, ln, nm⟩ := fr
      cases fn <;> cases ln <;> cases nm <;> simp [extractFrameFields, h]

theorem addTraceFields_type (e : PyExcModel) (info : PythonErrorInfo) :
    (addTraceFields e info).type = info.type := by
  cases htr : e.trace with
  | none => simp [addTraceFields, htr]
  | some t => simp [addTraceFields, htr, extractFrameFields_type]

/-- C9: extraction of the Diagnostic Record is best-effort and total — when
the body raises internally, the failure is caught and replaced by the fixed
fallback record (every field constructed, never partial), and whenever the
caught exception carries a type object (a pybind11 `error_already_set`
always holds one) whose name is unobtainable — no `__name__`, or its string
conversion raises — the kind field is `"Unknown"`. -/
theorem extractPythonErrorInfo_total_and_unknown_fallback :
    ∀ e : PyExcModel,
      (extractPythonErrorInfoTry e = Except.error () →
        extractPythonErrorInfo e =
          { type := "Unknown",
            message := "Failed to extract Python error information" }) ∧
      (∀ t, e.excType = some t → typeNameObtainable t = Option.none →
        (extractPythonErrorInfo e).type = "Unknown") := by
  intro e
  constructor
  · intro h
    simp [extractPythonErrorInfo, h]
  · intro t ht hname
    obtain ⟨tn⟩ := t
    cases tn with
    | none =>
      cases hv : e.value with
      | none =>
        simp [extractPythonErrorInfo, extractPythonErrorInfoTry, ht, hv,
          addTraceFields_type]
      | some vo =>
        cases vo with
        | none => simp [extractPythonErrorInfo, extractPythonErrorInfoTry, ht, hv]
        | some m =>
          simp [extractPythonErrorInfo, extractPythonErrorInfoTry, ht, hv,
            addTraceFields_type]
    | some so =>
      cases so with
      | none => simp [extractPythonErrorInfo, extractPythonErrorInfoTry, ht]
      | some s => simp [typeNameObtainable] at hname

/-- Witness for C9: an exception whose type object is present but whose
`__name__` string conversion raises yields kind `"Unknown"`; and the fallback
record equation evaluated there. -/
theorem extractPythonErrorInfo_unknown_witness :
    (extractPythonErrorInfo
      ⟨some ⟨some Option.none⟩, some (some "x"), Option.none⟩).type = "Unknown" :=
  (extractPythonErrorInfo_total_and_unknown_fallback
    ⟨some ⟨some Option.none⟩, some (some "x"), Option.none⟩).2
    ⟨some Option.none⟩ rfl rfl

/-- C10: `setGlobalErrorCallback(cb)` removes every previously registered
callback — including ones added through `addErrorCallback` — leaving the list
holding exactly `cb`, so a later fan-out invokes only `cb`. -/
theorem setGlobalErrorCallback_discards_previous :
    ∀ (prev : List ErrorCallback) (c₁ cb : ErrorCallback)
      (info : PythonErrorInfo),
      setGlobalErrorCallback cb prev = [cb] ∧
      setGlobalErrorCallback cb (addErrorCallback c₁ prev) = [cb] ∧
      invokedIds (triggerErrorCallbacks info (setGlobalErrorCallback cb prev)) =
        [cb.id] := by
  intro prev c₁ cb info
  refine ⟨rfl, rfl, ?_⟩
  simpa using invokedIds_trigger info [cb]
